import Mathlib

/-!
Shallow embedding of `src/helium10-mcp-server/improved_llm_example.py`.

The script is a linear demonstration: a pipeline runner (`use_pipeline`),
a direct tokenizer/model runner (`use_direct_model`), and a `__main__`
block that calls both, each under its own `try/except` boundary.

Modelling conventions:
- A print trace is a `List String`, one entry per `print(...)` call
  (the payload; the trailing newline of `print` is implicit).
- A Python exception is its `str(e)` rendering, type `Err := String`.
- A routine is a function returning the trace it printed together with
  `Except Err Unit`: `.error e` means the exception `e` escaped the
  routine after the listed lines were printed.
- The external `transformers`/`torch` library is injected as structures
  of fallible functions (stubs), exactly the surface the script touches.
- Python keyword arguments are an explicit association list
  `List (String × PyVal)`, so "called with exactly these kwargs" is a
  statement about a concrete list. The float literal `0.7` is modelled
  by the rational it denotes in source text.
- `torch.no_grad()` has no observable effect in this embedding (it only
  toggles gradient tracking inside the library), so the `with` block is
  the plain call it wraps.
-/

/-- A Python exception, identified by its `str(e)` rendering. -/
abbrev Err := String

/-- Result of running a routine: the lines it printed, and whether an
exception escaped it. -/
abbrev PyRun := List String × Except Err Unit

/-- A Python value appearing as a keyword-argument payload in this script. -/
inductive PyVal where
  | int : Int → PyVal
  | bool : Bool → PyVal
  | float : Rat → PyVal
  deriving DecidableEq, Repr

/-- A chat message dict `{"role": ..., "content": ...}` (line 8). -/
structure ChatMessage where
  role : String
  content : String
  deriving DecidableEq, Repr

/-- One element of the pipeline's result list: a dict holding the key
`generated_text`. -/
structure GenResult where
  generated_text : String
  deriving DecidableEq, Repr

/-- The callable returned by `pipeline(...)`: takes the messages list and
the keyword arguments, may raise, otherwise returns the result list. -/
structure PipeObj where
  call : List ChatMessage → List (String × PyVal) → Except Err (List GenResult)

/-- The slice of the `transformers` module used by `use_pipeline`:
`pipeline(task, model=name)` (line 10), which may raise. -/
structure PipelineLib where
  pipeline : String → String → Except Err PipeObj

/-- The dict returned by `tokenizer(prompt, return_tensors="pt")` (line 34):
it holds both `input_ids` and `attention_mask` tensors. -/
structure EncodedInputs where
  input_ids : List Int
  attention_mask : List Int
  deriving DecidableEq, Repr

/-- A tokenizer object as used by `use_direct_model`:
`tokenizer(prompt, return_tensors="pt")`, the `eos_token_id` attribute,
and `tokenizer.decode(ids, skip_special_tokens=...)`. -/
structure TokenizerStub where
  encode : String → Except Err EncodedInputs
  eos_token_id : Int
  decode : List Int → Bool → Except Err String

/-- A causal-LM model object: `model.generate(input_ids, **kwargs)`
returning a batch of output token sequences. -/
structure ModelStub where
  generate : List Int → List (String × PyVal) → Except Err (List (List Int))

/-- The slice of `transformers` used by `use_direct_model`:
`AutoTokenizer.from_pretrained` (line 29) and
`AutoModelForCausalLM.from_pretrained` (line 30). -/
structure TransformersLib where
  autoTokenizer_from_pretrained : String → Except Err TokenizerStub
  autoModel_from_pretrained : String → Except Err ModelStub

/-- The model identifier string at line 10 (`pipeline(..., model=...)`). -/
def pipeline_model_id : String := "unsloth/DeepSeek-R1-Distill-Llama-8B"

/-- The model identifier string at line 29 (`AutoTokenizer.from_pretrained`). -/
def tokenizer_model_id : String := "unsloth/DeepSeek-R1-Distill-Llama-8B"

/-- The model identifier string at line 30 (`AutoModelForCausalLM.from_pretrained`). -/
def causal_model_id : String := "unsloth/DeepSeek-R1-Distill-Llama-8B"

/-- The messages list built at lines 7-9. -/
def chat_messages : List ChatMessage := [⟨"user", "Who are you?"⟩]

/-- The keyword arguments of the `pipe(messages, ...)` call at line 13. -/
def pipe_kwargs : List (String × PyVal) :=
  [("max_length", .int 100), ("do_sample", .bool true), ("temperature", .float (7 / 10))]

/-- Message of the IndexError raised by indexing an empty list with `[0]`. -/
def index_error : Err := "list index out of range"

/-- Body of `use_pipeline` after the banner print (lines 7-18):
construct the pipeline, call it, print `"Ergebnis:"`, index and print the
first generated text, print a blank separator. -/
def pipeline_body (lib : PipelineLib) : PyRun :=
  match lib.pipeline "text-generation" pipeline_model_id with
  | .error e => ([], .error e)
  | .ok pipe =>
    match pipe.call chat_messages pipe_kwargs with
    | .error e => ([], .error e)
    | .ok result =>
      match result.head? with
      | none => (["Ergebnis:"], .error index_error)
      | some first => (["Ergebnis:", first.generated_text, "\n"], .ok ())

/-- Function `use_pipeline` (lines 5-18): banner print, then the body. -/
def use_pipeline (lib : PipelineLib) : PyRun :=
  ("=== Pipeline-Ansatz ===" :: (pipeline_body lib).1, (pipeline_body lib).2)

/-- The fixed prompt at line 33. -/
def prompt_str : String := "Who are you?"

/-- The keyword arguments of the `model.generate(...)` call at lines 38-44,
as a function of `tokenizer.eos_token_id`. -/
def generate_kwargs (eos : Int) : List (String × PyVal) :=
  [("max_length", .int 100), ("do_sample", .bool true),
   ("temperature", .float (7 / 10)), ("pad_token_id", .int eos)]

/-- Body of `use_direct_model` after the banner print (lines 28-49):
load tokenizer and model, encode the prompt, generate (under `no_grad`),
decode `output[0]` with `skip_special_tokens=True`, print prompt and
answer. -/
def direct_body (lib : TransformersLib) : PyRun :=
  match lib.autoTokenizer_from_pretrained tokenizer_model_id with
  | .error e => ([], .error e)
  | .ok tokenizer =>
    match lib.autoModel_from_pretrained causal_model_id with
    | .error e => ([], .error e)
    | .ok model =>
      match tokenizer.encode prompt_str with
      | .error e => ([], .error e)
      | .ok inputs =>
        match model.generate inputs.input_ids (generate_kwargs tokenizer.eos_token_id) with
        | .error e => ([], .error e)
        | .ok output =>
          match output.head? with
          | none => ([], .error index_error)
          | some seq =>
            match tokenizer.decode seq true with
            | .error e => ([], .error e)
            | .ok generated_text =>
              (["Eingabe: " ++ prompt_str, "Generierte Antwort: " ++ generated_text], .ok ())

/-- Function `use_direct_model` (lines 25-49): banner print, then the body. -/
def use_direct_model (lib : TransformersLib) : PyRun :=
  ("=== Direkter Modell-Ansatz ===" :: (direct_body lib).1, (direct_body lib).2)

/-- The f-string message of the first `except` branch (line 59), applied to
`str(e)`. -/
def pipeline_error_msg (e : Err) : String := "Fehler beim Pipeline-Ansatz: " ++ e

/-- The f-string message of the second `except` branch (line 64), applied to
`str(e)`. -/
def direct_error_msg (e : Err) : String := "Fehler beim direkten Modell-Ansatz: " ++ e

/-- A `try: run() except Exception as e: print(msg(e))` boundary: the lines
printed are the routine's own lines, followed by the formatted message when
an exception escaped it. The exception is swallowed either way. -/
def boundary (run : PyRun) (msg : Err → String) : List String :=
  match run.2 with
  | .ok _ => run.1
  | .error e => run.1 ++ [msg e]

/-- The `__main__` block (lines 52-64): header print, then each runner under
its own `try/except Exception` boundary. No exception escapes the block and
no explicit exit code is set. -/
def mainEntry (plib : PipelineLib) (tlib : TransformersLib) : PyRun :=
  ("LLM-Beispiel mit DeepSeek-R1-Distill-Llama-8B\n" ::
     (boundary (use_pipeline plib) pipeline_error_msg ++
      boundary (use_direct_model tlib) direct_error_msg),
   .ok ())

/-- Loading the file as a Python module with a given `__name__`: the imports
and function definitions print nothing; the guarded block at line 52 runs
only when `__name__ == "__main__"`. -/
def module_load (name : String) (plib : PipelineLib) (tlib : TransformersLib) : PyRun :=
  if name = "__main__" then mainEntry plib tlib else ([], .ok ())

/-- Executing the file as a script: the interpreter supplies an argument
vector and an environment, but the script imports neither `sys` nor `os`
and its `__main__` block reads no argument or environment variable, so the
run is `mainEntry` regardless of them. -/
def run_script (argv : List String) (env : List (String × String))
    (plib : PipelineLib) (tlib : TransformersLib) : PyRun :=
  mainEntry plib tlib

/-! Concrete stub libraries, used to exercise the theorems on closed inputs. -/

/-- A stub tokenizer whose operations all succeed. -/
def demoTokenizer : TokenizerStub where
  encode := fun _ => .ok ⟨[101, 9], [1, 1]⟩
  eos_token_id := 2
  decode := fun _ _ => .ok "I am an assistant."

/-- A stub model whose generate call returns one fixed output sequence. -/
def demoModel : ModelStub where
  generate := fun _ _ => .ok [[101, 9, 2]]

/-- A stub transformers library that always loads the demo stubs. -/
def demoTransformers : TransformersLib where
  autoTokenizer_from_pretrained := fun _ => .ok demoTokenizer
  autoModel_from_pretrained := fun _ => .ok demoModel

/-- A stub pipeline callable returning one fixed candidate. -/
def demoPipe : PipeObj where
  call := fun _ _ => .ok [⟨"I am DeepSeek."⟩]

/-- A stub pipeline library that always constructs the demo callable. -/
def demoPipelineLib : PipelineLib where
  pipeline := fun _ _ => .ok demoPipe

/-- A stub pipeline library whose construction always raises. -/
def failingPipelineLib : PipelineLib where
  pipeline := fun _ _ => .error "boom"

/-- A stub transformers library whose loading calls always raise. -/
def failingTransformersLib : TransformersLib where
  autoTokenizer_from_pretrained := fun _ => .error "crash"
  autoModel_from_pretrained := fun _ => .error "crash"

/-- Replace the attention mask produced by a tokenizer stub, leaving its
input ids, eos token id and decode behavior unchanged. -/
def set_attention_mask (m : List Int) (t : TokenizerStub) : TokenizerStub :=
  { t with encode := fun s => (t.encode s).map (fun enc => { enc with attention_mask := m }) }

/-- Lift `set_attention_mask` over the library's tokenizer loader. -/
def set_attention_mask_lib (m : List Int) (lib : TransformersLib) : TransformersLib :=
  { lib with autoTokenizer_from_pretrained :=
      fun n => (lib.autoTokenizer_from_pretrained n).map (set_attention_mask m) }

/-- C1: the entry point runs `use_pipeline` first and `use_direct_model`
second; whenever the pipeline runner raises `e`, the entry point catches it,
prints the formatted message right after the pipeline runner's own output,
still runs the direct-model runner (whose banner line always appears), and
the block itself raises nothing. -/
theorem entry_isolates_pipeline_failure (plib : PipelineLib) (tlib : TransformersLib)
    (e : Err) (h : (use_pipeline plib).2 = .error e) :
    (mainEntry plib tlib).1 =
      "LLM-Beispiel mit DeepSeek-R1-Distill-Llama-8B\n" ::
        ((use_pipeline plib).1 ++ pipeline_error_msg e ::
          boundary (use_direct_model tlib) direct_error_msg) ∧
    (use_direct_model tlib).1.head? = some "=== Direkter Modell-Ansatz ===" ∧
    (mainEntry plib tlib).2 = .ok () := by
  refine ⟨?_, rfl, rfl⟩
  simp [mainEntry, boundary, h]

/-- Witness for C1 at the concrete failing pipeline stub and succeeding
direct-model stubs. -/
theorem entry_isolates_pipeline_failure_witness :
    (use_pipeline failingPipelineLib).2 = .error "boom" ∧
    ((mainEntry failingPipelineLib demoTransformers).1 =
      "LLM-Beispiel mit DeepSeek-R1-Distill-Llama-8B\n" ::
        ((use_pipeline failingPipelineLib).1 ++ pipeline_error_msg "boom" ::
          boundary (use_direct_model demoTransformers) direct_error_msg) ∧
    (use_direct_model demoTransformers).1.head? = some "=== Direkter Modell-Ansatz ===" ∧
    (mainEntry failingPipelineLib demoTransformers).2 = .ok ()) :=
  ⟨rfl, entry_isolates_pipeline_failure failingPipelineLib demoTransformers "boom" rfl⟩

/-- C2: when both runners raise, the entry point prints the formatted
message for each and its own result is still `.ok ()`: neither exception
reaches the caller of the block and no exit code is set. -/
theorem entry_swallows_both_failures (plib : PipelineLib) (tlib : TransformersLib)
    (e1 e2 : Err)
    (h1 : (use_pipeline plib).2 = .error e1)
    (h2 : (use_direct_model tlib).2 = .error e2) :
    (mainEntry plib tlib).2 = .ok () ∧
    pipeline_error_msg e1 ∈ (mainEntry plib tlib).1 ∧
    direct_error_msg e2 ∈ (mainEntry plib tlib).1 := by
  refine ⟨rfl, ?_, ?_⟩ <;> simp [mainEntry, boundary, h1, h2]

/-- Witness for C2 at the concrete stubs where both loaders raise. -/
theorem entry_swallows_both_failures_witness :
    (use_pipeline failingPipelineLib).2 = .error "boom" ∧
    (use_direct_model failingTransformersLib).2 = .error "crash" ∧
    ((mainEntry failingPipelineLib failingTransformersLib).2 = .ok () ∧
    pipeline_error_msg "boom" ∈ (mainEntry failingPipelineLib failingTransformersLib).1 ∧
    direct_error_msg "crash" ∈ (mainEntry failingPipelineLib failingTransformersLib).1) :=
  ⟨rfl, rfl,
   entry_swallows_both_failures failingPipelineLib failingTransformersLib "boom" "crash" rfl rfl⟩

/-- C3: with any stub tokenizer and model whose calls succeed,
`use_direct_model` encodes the fixed prompt, calls generate with exactly the
kwargs max_length=100, do_sample=True, temperature=0.7,
pad_token_id=eos_token_id, decodes the first output sequence, and prints the
prompt and the decoded text. -/
theorem direct_model_stub_behavior (tlib : TransformersLib)
    (tok : TokenizerStub) (model : ModelStub) (enc : EncodedInputs)
    (out : List (List Int)) (seq : List Int) (txt : String)
    (htok : tlib.autoTokenizer_from_pretrained tokenizer_model_id = .ok tok)
    (hmod : tlib.autoModel_from_pretrained causal_model_id = .ok model)
    (henc : tok.encode prompt_str = .ok enc)
    (hgen : model.generate enc.input_ids (generate_kwargs tok.eos_token_id) = .ok out)
    (hseq : out.head? = some seq)
    (hdec : tok.decode seq true = .ok txt) :
    prompt_str = "Who are you?" ∧
    generate_kwargs tok.eos_token_id =
      [("max_length", .int 100), ("do_sample", .bool true),
       ("temperature", .float (7 / 10)), ("pad_token_id", .int tok.eos_token_id)] ∧
    use_direct_model tlib =
      (["=== Direkter Modell-Ansatz ===", "Eingabe: " ++ prompt_str,
        "Generierte Antwort: " ++ txt], .ok ()) := by
  refine ⟨rfl, rfl, ?_⟩
  simp [use_direct_model, direct_body, htok, hmod, henc, hgen, hseq, hdec]

/-- Witness for C3 at the concrete demo stubs. -/
theorem direct_model_stub_behavior_witness :
    demoTransformers.autoTokenizer_from_pretrained tokenizer_model_id = .ok demoTokenizer ∧
    demoTransformers.autoModel_from_pretrained causal_model_id = .ok demoModel ∧
    demoTokenizer.encode prompt_str = .ok ⟨[101, 9], [1, 1]⟩ ∧
    demoModel.generate [101, 9] (generate_kwargs demoTokenizer.eos_token_id) =
      .ok [[101, 9, 2]] ∧
    demoTokenizer.decode [101, 9, 2] true = .ok "I am an assistant." ∧
    use_direct_model demoTransformers =
      (["=== Direkter Modell-Ansatz ===", "Eingabe: " ++ prompt_str,
        "Generierte Antwort: " ++ "I am an assistant."], .ok ()) :=
  ⟨rfl, rfl, rfl, rfl, rfl,
   (direct_model_stub_behavior demoTransformers demoTokenizer demoModel
      ⟨[101, 9], [1, 1]⟩ [[101, 9, 2]] [101, 9, 2] "I am an assistant."
      rfl rfl rfl rfl rfl rfl).2.2⟩

/-- C4: the model identifier at line 10 (pipeline), line 29 (tokenizer) and
line 30 (model) is the one string "unsloth/DeepSeek-R1-Distill-Llama-8B". -/
theorem model_ids_identical :
    pipeline_model_id = "unsloth/DeepSeek-R1-Distill-Llama-8B" ∧
    tokenizer_model_id = pipeline_model_id ∧
    causal_model_id = pipeline_model_id :=
  ⟨rfl, rfl, rfl⟩

/-- C5: with any stub pipeline callable that returns a result list whose
first element carries a generated text, `use_pipeline` prints exactly that
text (between the "Ergebnis:" label and the blank separator). -/
theorem pipeline_stub_behavior (plib : PipelineLib) (pipe : PipeObj)
    (result : List GenResult) (first : GenResult)
    (hp : plib.pipeline "text-generation" pipeline_model_id = .ok pipe)
    (hc : pipe.call chat_messages pipe_kwargs = .ok result)
    (hh : result.head? = some first) :
    use_pipeline plib =
      (["=== Pipeline-Ansatz ===", "Ergebnis:", first.generated_text, "\n"], .ok ()) := by
  simp [use_pipeline, pipeline_body, hp, hc, hh]

/-- Witness for C5 at the concrete demo pipeline stub. -/
theorem pipeline_stub_behavior_witness :
    demoPipelineLib.pipeline "text-generation" pipeline_model_id = .ok demoPipe ∧
    demoPipe.call chat_messages pipe_kwargs = .ok [⟨"I am DeepSeek."⟩] ∧
    use_pipeline demoPipelineLib =
      (["=== Pipeline-Ansatz ===", "Ergebnis:", "I am DeepSeek.", "\n"], .ok ()) :=
  ⟨rfl, rfl,
   pipeline_stub_behavior demoPipelineLib demoPipe [⟨"I am DeepSeek."⟩] ⟨"I am DeepSeek."⟩
     rfl rfl rfl⟩

/-- C6: once generate has returned a batch whose first sequence is `seq`,
`use_direct_model` decodes exactly `seq` with skip_special_tokens set to
`true`, and on success prints the prompt line followed by the decoded-text
line; a decode failure propagates unchanged. -/
theorem direct_model_decodes_first_sequence (tlib : TransformersLib)
    (tok : TokenizerStub) (model : ModelStub) (enc : EncodedInputs)
    (out : List (List Int)) (seq : List Int)
    (htok : tlib.autoTokenizer_from_pretrained tokenizer_model_id = .ok tok)
    (hmod : tlib.autoModel_from_pretrained causal_model_id = .ok model)
    (henc : tok.encode prompt_str = .ok enc)
    (hgen : model.generate enc.input_ids (generate_kwargs tok.eos_token_id) = .ok out)
    (hseq : out.head? = some seq) :
    use_direct_model tlib =
      (match tok.decode seq true with
       | .error e => (["=== Direkter Modell-Ansatz ==="], .error e)
       | .ok txt =>
          (["=== Direkter Modell-Ansatz ===", "Eingabe: " ++ prompt_str,
            "Generierte Antwort: " ++ txt], .ok ())) := by
  rcases hd : tok.decode seq true with e | txt <;>
    simp [use_direct_model, direct_body, htok, hmod, henc, hgen, hseq, hd]

/-- Witness for C6 at the concrete demo stubs. -/
theorem direct_model_decodes_first_sequence_witness :
    demoTransformers.autoTokenizer_from_pretrained tokenizer_model_id = .ok demoTokenizer ∧
    demoTransformers.autoModel_from_pretrained causal_model_id = .ok demoModel ∧
    demoTokenizer.encode prompt_str = .ok ⟨[101, 9], [1, 1]⟩ ∧
    demoModel.generate [101, 9] (generate_kwargs demoTokenizer.eos_token_id) =
      .ok [[101, 9, 2]] ∧
    ([[101, 9, 2]] : List (List Int)).head? = some [101, 9, 2] ∧
    use_direct_model demoTransformers =
      (match demoTokenizer.decode [101, 9, 2] true with
       | .error e => (["=== Direkter Modell-Ansatz ==="], .error e)
       | .ok txt =>
          (["=== Direkter Modell-Ansatz ===", "Eingabe: " ++ prompt_str,
            "Generierte Antwort: " ++ txt], .ok ())) :=
  ⟨rfl, rfl, rfl, rfl, rfl,
   direct_model_decodes_first_sequence demoTransformers demoTokenizer demoModel
     ⟨[101, 9], [1, 1]⟩ [[101, 9, 2]] [101, 9, 2] rfl rfl rfl rfl rfl⟩

/-- C7: neither runner contains a recovery: an exception raised at any of
the library call sites — pipeline construction, pipeline invocation,
tokenizer load, model load, prompt encoding, generation, decoding — escapes
the enclosing runner as exactly that exception. -/
theorem runner_errors_propagate (plib : PipelineLib) (tlib : TransformersLib) (e : Err) :
    (plib.pipeline "text-generation" pipeline_model_id = .error e →
      (use_pipeline plib).2 = .error e) ∧
    (∀ pipe, plib.pipeline "text-generation" pipeline_model_id = .ok pipe →
      pipe.call chat_messages pipe_kwargs = .error e →
      (use_pipeline plib).2 = .error e) ∧
    (tlib.autoTokenizer_from_pretrained tokenizer_model_id = .error e →
      (use_direct_model tlib).2 = .error e) ∧
    (∀ tok, tlib.autoTokenizer_from_pretrained tokenizer_model_id = .ok tok →
      tlib.autoModel_from_pretrained causal_model_id = .error e →
      (use_direct_model tlib).2 = .error e) ∧
    (∀ tok model, tlib.autoTokenizer_from_pretrained tokenizer_model_id = .ok tok →
      tlib.autoModel_from_pretrained causal_model_id = .ok model →
      tok.encode prompt_str = .error e →
      (use_direct_model tlib).2 = .error e) ∧
    (∀ tok model enc, tlib.autoTokenizer_from_pretrained tokenizer_model_id = .ok tok →
      tlib.autoModel_from_pretrained causal_model_id = .ok model →
      tok.encode prompt_str = .ok enc →
      model.generate enc.input_ids (generate_kwargs tok.eos_token_id) = .error e →
      (use_direct_model tlib).2 = .error e) ∧
    (∀ tok model enc out seq,
      tlib.autoTokenizer_from_pretrained tokenizer_model_id = .ok tok →
      tlib.autoModel_from_pretrained causal_model_id = .ok model →
      tok.encode prompt_str = .ok enc →
      model.generate enc.input_ids (generate_kwargs tok.eos_token_id) = .ok out →
      out.head? = some seq →
      tok.decode seq true = .error e →
      (use_direct_model tlib).2 = .error e) := by
  refine ⟨fun h => ?_, fun pipe h1 h2 => ?_, fun h => ?_, fun tok h1 h2 => ?_,
    fun tok model h1 h2 h3 => ?_, fun tok model enc h1 h2 h3 h4 => ?_,
    fun tok model enc out seq h1 h2 h3 h4 h5 h6 => ?_⟩ <;>
  simp_all [use_pipeline, pipeline_body, use_direct_model, direct_body]

/-- Witness for C7: the first and third conjuncts at the concrete failing
stubs. -/
theorem runner_errors_propagate_witness :
    failingPipelineLib.pipeline "text-generation" pipeline_model_id = .error "boom" ∧
    (use_pipeline failingPipelineLib).2 = .error "boom" ∧
    failingTransformersLib.autoTokenizer_from_pretrained tokenizer_model_id = .error "crash" ∧
    (use_direct_model failingTransformersLib).2 = .error "crash" :=
  ⟨rfl,
   (runner_errors_propagate failingPipelineLib failingTransformersLib "boom").1 rfl,
   rfl,
   (runner_errors_propagate failingPipelineLib failingTransformersLib "crash").2.2.1 rfl⟩

/-- C8: script execution reads neither the argument vector nor the
environment: with the same library behavior, any two invocations perform the
same calls and print the same standard-output text. -/
theorem script_ignores_argv_env (argv1 argv2 : List String)
    (env1 env2 : List (String × String)) (plib : PipelineLib) (tlib : TransformersLib) :
    run_script argv1 env1 plib tlib = run_script argv2 env2 plib tlib :=
  rfl

/-- C9: importing the file under any module name other than "__main__" runs
neither runner and prints nothing: the load has no output and raises
nothing. -/
theorem import_has_no_effects (name : String) (plib : PipelineLib) (tlib : TransformersLib)
    (h : name ≠ "__main__") :
    module_load name plib tlib = ([], .ok ()) := by
  simp [module_load, h]

/-- Witness for C9 at a concrete non-main module name. -/
theorem import_has_no_effects_witness :
    ("improved_llm_example" : String) ≠ "__main__" ∧
    module_load "improved_llm_example" demoPipelineLib demoTransformers = ([], .ok ()) :=
  ⟨by decide,
   import_has_no_effects "improved_llm_example" demoPipelineLib demoTransformers (by decide)⟩

/-- C10: the generate call receives exactly the four keyword arguments
max_length, do_sample, temperature, pad_token_id — in particular no
attention_mask — and only the input_ids of the encoded inputs: changing the
attention mask the tokenizer produces never changes what
`use_direct_model` prints or raises. -/
theorem generate_gets_only_input_ids (eos : Int) (m : List Int) (lib : TransformersLib) :
    (generate_kwargs eos).map Prod.fst =
      ["max_length", "do_sample", "temperature", "pad_token_id"] ∧
    "attention_mask" ∉ (generate_kwargs eos).map Prod.fst ∧
    use_direct_model (set_attention_mask_lib m lib) = use_direct_model lib := by
  refine ⟨rfl, by simp [generate_kwargs], ?_⟩
  unfold use_direct_model direct_body set_attention_mask_lib set_attention_mask
  rcases h1 : lib.autoTokenizer_from_pretrained tokenizer_model_id with e | tok <;>
    simp [h1, Except.map]
  rcases h2 : lib.autoModel_from_pretrained causal_model_id with e | model <;>
    simp [h2]
  rcases h3 : tok.encode prompt_str with e | enc <;> simp [h3, Except.map]
